import Mathlib

/-!
Shallow embedding of `src/gc1/solarTerms.js` (the solar-term resolver core).

Modelling conventions:
* A JS `Date`'s time value (integer milliseconds since the epoch) is a `ℤ`.
  A coerced input whose time value is `NaN` is modelled as `Option ℤ = none`.
* JS numbers that carry degree values are modelled as exact rationals `ℚ`
  (every IEEE double is a rational; the resolver's degree arithmetic is
  plain field arithmetic plus `%`, `Math.floor`).
* The external `Astronomy` engine is the `Oracle` capability: `elon` models
  `Astronomy.SunPosition(date).elon`, and `search` models
  `Astronomy.SearchSunLongitude(target, start, limitDays)` followed by
  `toDateFromAstroTime` and the NaN check: `none` covers null / invalid
  results, `some d` a valid instant.
* `getSolarTermInfo` additionally returns the total number of oracle calls
  made (the longitude read plus every `search` invocation), and
  `findSunLongitudeEvent` returns the list of `search` invocations it made,
  so that resource-usage statements can be expressed.
* `new Date()` (the wall clock read for `meta.computedAt`) is modelled as an
  explicit parameter `now`.
-/

/-- One entry of the static 24-term table: a name and its defining
apparent ecliptic longitude in degrees. -/
structure SolarTerm where
  name : String
  lon : ℚ
deriving DecidableEq, Repr

/-- The 24 solar terms, from `const SOLAR_TERMS` in the source:
index 0 is 立春 at 315°, advancing +15° per step (mod 360). -/
def SOLAR_TERMS : List SolarTerm :=
  [⟨"立春", 315⟩, ⟨"雨水", 330⟩, ⟨"惊蛰", 345⟩, ⟨"春分", 0⟩,
   ⟨"清明", 15⟩, ⟨"谷雨", 30⟩, ⟨"立夏", 45⟩, ⟨"小满", 60⟩,
   ⟨"芒种", 75⟩, ⟨"夏至", 90⟩, ⟨"小暑", 105⟩, ⟨"大暑", 120⟩,
   ⟨"立秋", 135⟩, ⟨"处暑", 150⟩, ⟨"白露", 165⟩, ⟨"秋分", 180⟩,
   ⟨"寒露", 195⟩, ⟨"霜降", 210⟩, ⟨"立冬", 225⟩, ⟨"小雪", 240⟩,
   ⟨"大雪", 255⟩, ⟨"冬至", 270⟩, ⟨"小寒", 285⟩, ⟨"大寒", 300⟩]

/-- `SOLAR_TERMS[i]` as in the source (array indexing; indices used by the
resolver are always in `0..23`). -/
def termAt (i : ℕ) : SolarTerm := SOLAR_TERMS.getD i ⟨"", 0⟩

/-- `const MS_PER_MIN = 60 * 1000`. -/
def MS_PER_MIN : ℤ := 60 * 1000

/-- `const MS_PER_DAY = 24 * 60 * 60 * 1000`. -/
def MS_PER_DAY : ℤ := 24 * 60 * 60 * 1000

/-- Truncation toward zero, the rounding used by the JS `%` operator. -/
def ratTrunc (q : ℚ) : ℤ := if 0 ≤ q then ⌊q⌋ else ⌈q⌉

/-- The JS remainder `a % b` (sign of the dividend, `|result| < |b|`). -/
def jsMod (a b : ℚ) : ℚ := a - b * (ratTrunc (a / b) : ℚ)

/-- `function norm360(deg)`: `deg % 360`, shifted into `[0, 360)`. -/
def norm360 (deg : ℚ) : ℚ :=
  let x := jsMod deg 360
  if x < 0 then x + 360 else x

/-- `function floorToMinute(date)`:
`new Date(Math.floor(date.getTime() / MS_PER_MIN) * MS_PER_MIN)`. -/
def floorToMinute (t : ℤ) : ℤ := ⌊(t : ℚ) / (MS_PER_MIN : ℚ)⌋ * MS_PER_MIN

/-- `function termIndexFromElon(elonDeg)`:
`Math.floor(norm360(elonDeg - 315) / 15)`, the longitude-to-term-index map. -/
def termIndexFromElon (elonDeg : ℚ) : ℤ := ⌊norm360 (elonDeg - 315) / 15⌋

/-- The external astronomy capability consumed by the resolver. -/
structure Oracle where
  elon : ℤ → ℚ
  search : ℚ → ℤ → ℕ → Option ℤ

/-- The errors `getSolarTermInfo` can throw (as distinguished by the
source's error messages). -/
inductive SolarError where
  | invalidInput
  | boundaryNotFound (targetLon : ℚ)
deriving DecidableEq, Repr

/-- One recorded invocation of `Astronomy.SearchSunLongitude`:
target longitude, window start (ms), window length (days). -/
structure SearchCall where
  target : ℚ
  windowStart : ℤ
  limitDays : ℕ
deriving DecidableEq, Repr

/-- `function findSunLongitudeEvent(targetLon, centerDate)`: primary window
`[center − 40d, +80d]`, one fallback window `[center − 200d, +400d]`, then
an error naming the target longitude.  Also returns the list of `search`
invocations made. -/
def findSunLongitudeEvent (O : Oracle) (targetLon : ℚ) (centerDate : ℤ) :
    Except SolarError ℤ × List SearchCall :=
  let start := centerDate - 40 * MS_PER_DAY
  match O.search (norm360 targetLon) start 80 with
  | some d => (Except.ok d, [⟨norm360 targetLon, start, 80⟩])
  | none =>
    let start2 := centerDate - 200 * MS_PER_DAY
    match O.search (norm360 targetLon) start2 400 with
    | some d =>
        (Except.ok d, [⟨norm360 targetLon, start, 80⟩, ⟨norm360 targetLon, start2, 400⟩])
    | none =>
        (Except.error (SolarError.boundaryNotFound targetLon),
         [⟨norm360 targetLon, start, 80⟩, ⟨norm360 targetLon, start2, 400⟩])

/-- The current-term fields of the result (`current` in the source). -/
structure TermFull where
  name : String
  lon : ℚ
  startTime : ℤ
  endTime : ℤ
deriving DecidableEq, Repr

/-- The previous/next-term fields of the result. -/
structure TermStart where
  name : String
  lon : ℚ
  startTime : ℤ
deriving DecidableEq, Repr

/-- The `meta` fields of the result. -/
structure TermMeta where
  sunEclipticLongitude : ℚ
  computedAt : ℤ
deriving DecidableEq, Repr

/-- The full return value of `getSolarTermInfo`. -/
structure SolarTermInfo where
  current : TermFull
  previous : TermStart
  next : TermStart
  meta : TermMeta
deriving DecidableEq, Repr

/-- The self-correction step of `getSolarTermInfo` (lines 141-144 of the
source): if the computed `currentStart` lies strictly after the query
instant, step the index back one term and recompute the boundary once. -/
def corrStep (O : Oracle) (date : ℤ) (idx0 : ℕ) (cs1 : ℤ) :
    Except SolarError (ℕ × ℤ) × List SearchCall :=
  if date < cs1 then
    let idx1 := (idx0 + 23) % 24
    match findSunLongitudeEvent O (termAt idx1).lon date with
    | (Except.ok cs2, tr) => (Except.ok (idx1, cs2), tr)
    | (Except.error e, tr) => (Except.error e, tr)
  else (Except.ok (idx0, cs1), [])

/-- `export function getSolarTermInfo(inputDate)`.  `input = none` models a
coerced date whose time value is `NaN`; `now` models the `new Date()` wall
clock read stored in `meta.computedAt`.  The second component is the total
number of oracle calls performed (longitude read + searches). -/
def getSolarTermInfo (O : Oracle) (now : ℤ) (input : Option ℤ) :
    Except SolarError SolarTermInfo × ℕ :=
  match input with
  | none => (Except.error SolarError.invalidInput, 0)
  | some date =>
    let elon := norm360 (O.elon date)
    let idx0 := (termIndexFromElon elon).toNat
    match findSunLongitudeEvent O (termAt idx0).lon date with
    | (Except.error e, tr1) => (Except.error e, 1 + tr1.length)
    | (Except.ok cs1, tr1) =>
      match corrStep O date idx0 cs1 with
      | (Except.error e, tr2) => (Except.error e, 1 + tr1.length + tr2.length)
      | (Except.ok (idx, currentStart), tr2) =>
        let prevIdx := (idx + 23) % 24
        let nextIdx := (idx + 1) % 24
        match findSunLongitudeEvent O (termAt prevIdx).lon date with
        | (Except.error e, tr3) =>
            (Except.error e, 1 + tr1.length + tr2.length + tr3.length)
        | (Except.ok prevStart, tr3) =>
          match findSunLongitudeEvent O (termAt nextIdx).lon date with
          | (Except.error e, tr4) =>
              (Except.error e, 1 + tr1.length + tr2.length + tr3.length + tr4.length)
          | (Except.ok nextStart, tr4) =>
            (Except.ok
              { current := { name := (termAt idx).name, lon := (termAt idx).lon,
                             startTime := floorToMinute currentStart,
                             endTime := floorToMinute nextStart },
                previous := { name := (termAt prevIdx).name, lon := (termAt prevIdx).lon,
                              startTime := floorToMinute prevStart },
                next := { name := (termAt nextIdx).name, lon := (termAt nextIdx).lon,
                          startTime := floorToMinute nextStart },
                meta := { sunEclipticLongitude := elon, computedAt := now } },
             1 + tr1.length + tr2.length + tr3.length + tr4.length)

/-- Total accessor: is the result a success? -/
def isOkE (x : Except SolarError SolarTermInfo) : Bool :=
  match x with
  | Except.ok _ => true
  | Except.error _ => false

/-- Total accessor: `current.name` of a successful result, `""` on error. -/
def currentNameOf (x : Except SolarError SolarTermInfo) : String :=
  match x with
  | Except.ok r => r.current.name
  | Except.error _ => ""

/-- Total accessor: `current.lon` of a successful result, `0` on error. -/
def currentLonOf (x : Except SolarError SolarTermInfo) : ℚ :=
  match x with
  | Except.ok r => r.current.lon
  | Except.error _ => 0

/-- Total accessor: `current.startTime` of a successful result, `0` on error. -/
def currentStartOf (x : Except SolarError SolarTermInfo) : ℤ :=
  match x with
  | Except.ok r => r.current.startTime
  | Except.error _ => 0

/-- Total accessor: `current.endTime` of a successful result, `0` on error. -/
def currentEndOf (x : Except SolarError SolarTermInfo) : ℤ :=
  match x with
  | Except.ok r => r.current.endTime
  | Except.error _ => 0

/-- Total accessor: `previous.startTime` of a successful result, `0` on error. -/
def prevStartOf (x : Except SolarError SolarTermInfo) : ℤ :=
  match x with
  | Except.ok r => r.previous.startTime
  | Except.error _ => 0

/-- Total accessor: `next.startTime` of a successful result, `0` on error. -/
def nextStartOf (x : Except SolarError SolarTermInfo) : ℤ :=
  match x with
  | Except.ok r => r.next.startTime
  | Except.error _ => 0

/-- Total accessor: `meta.computedAt` of a successful result, `0` on error. -/
def computedAtOf (x : Except SolarError SolarTermInfo) : ℤ :=
  match x with
  | Except.ok r => r.meta.computedAt
  | Except.error _ => 0

/-- Correctness assumptions on the oracle around a query instant `t`:
there is a true current-term index `cur` and a family `bdry` of boundary
instants (one per term index) such that every primary search answers with
the corresponding boundary, `t` lies in the current term's half-open true
window, adjacent boundaries are at least a minute apart (in reality they
are ~15.2 days apart), and the longitude read locates `t` in the current
term or — by discretization near a boundary — in the immediately following
one. -/
def OracleSound (O : Oracle) (t : ℤ) (bdry : ℕ → ℤ) (cur : ℕ) : Prop :=
  cur < 24 ∧
  (∀ j, j < 24 → O.search (norm360 (termAt j).lon) (t - 40 * MS_PER_DAY) 80 = some (bdry j)) ∧
  bdry cur ≤ t ∧
  t < bdry ((cur + 1) % 24) ∧
  bdry ((cur + 23) % 24) + MS_PER_MIN ≤ bdry cur ∧
  bdry cur + MS_PER_MIN ≤ bdry ((cur + 1) % 24) ∧
  ((termIndexFromElon (norm360 (O.elon t))).toNat = cur ∨
    (termIndexFromElon (norm360 (O.elon t))).toNat = (cur + 1) % 24)

/-- Observable part of a result: everything except `meta.computedAt`. -/
def obsPart (r : SolarTermInfo) : TermFull × TermStart × TermStart × ℚ :=
  (r.current, r.previous, r.next, r.meta.sunEclipticLongitude)

/-- A concrete sound oracle: the Sun sits at 315° (term index 0, 立春),
whose boundary is at instant 0; the next boundary (雨水, 330°) is at
90000 ms (1.5 minutes), and the previous boundary (大寒, 300°) is at
−1296000000 ms (−15 days).  All other term searches answer 0. -/
def OA : Oracle :=
  ⟨fun _ => 315,
   fun lon _ _ => if lon = 330 then some 90000
                  else if lon = 300 then some (-1296000000) else some 0⟩

/-- The boundary family matching `OA`'s search answers. -/
def bdryA : ℕ → ℤ :=
  fun j => if j = 1 then 90000 else if j = 23 then -1296000000 else 0

/-- An oracle whose primary-window searches always fail and whose fallback
searches always return instant 0. -/
def OB : Oracle := ⟨fun _ => 315, fun _ _ lim => if lim = 400 then some 0 else none⟩

/-- An oracle that reports not-found for every search. -/
def OC : Oracle := ⟨fun _ => 0, fun _ _ _ => none⟩

/-- An oracle for which only the search for longitude 300° (the
previous-term boundary of term index 0) fails both windows; every other
search succeeds on the primary window. -/
def OD : Oracle :=
  ⟨fun _ => 315,
   fun lon _ _ => if lon = 300 then none
                  else if lon = 330 then some 90000 else some 0⟩

lemma ratTrunc_sub_lt (q : ℚ) : q - (ratTrunc q : ℚ) < 1 := by
  unfold ratTrunc
  split
  · have := Int.sub_one_lt_floor q
    linarith
  · have := Int.le_ceil q
    linarith

lemma lt_ratTrunc_sub (q : ℚ) : -1 < q - (ratTrunc q : ℚ) := by
  unfold ratTrunc
  split
  · have := Int.floor_le q
    linarith
  · have := Int.ceil_lt_add_one q
    linarith

lemma jsMod_360_lt (deg : ℚ) : jsMod deg 360 < 360 := by
  unfold jsMod
  have h := ratTrunc_sub_lt (deg / 360)
  have key : deg - 360 * (ratTrunc (deg / 360) : ℚ)
      = 360 * (deg / 360 - (ratTrunc (deg / 360) : ℚ)) := by ring
  rw [key]
  linarith

lemma neg_360_lt_jsMod (deg : ℚ) : -360 < jsMod deg 360 := by
  unfold jsMod
  have h := lt_ratTrunc_sub (deg / 360)
  have key : deg - 360 * (ratTrunc (deg / 360) : ℚ)
      = 360 * (deg / 360 - (ratTrunc (deg / 360) : ℚ)) := by ring
  rw [key]
  linarith

lemma norm360_nonneg (deg : ℚ) : 0 ≤ norm360 deg := by
  simp only [norm360]
  split
  · linarith [neg_360_lt_jsMod deg]
  · linarith

lemma norm360_lt_360 (deg : ℚ) : norm360 deg < 360 := by
  simp only [norm360]
  split
  · linarith
  · linarith [jsMod_360_lt deg]

lemma termIndexFromElon_nonneg (e : ℚ) : 0 ≤ termIndexFromElon e := by
  unfold termIndexFromElon
  have h := norm360_nonneg (e - 315)
  exact Int.floor_nonneg.mpr (by positivity)

lemma termIndexFromElon_le_23 (e : ℚ) : termIndexFromElon e ≤ 23 := by
  unfold termIndexFromElon
  have h : norm360 (e - 315) / 15 < 24 := by
    linarith [norm360_lt_360 (e - 315)]
  have h24 : termIndexFromElon e < 24 := by
    unfold termIndexFromElon
    exact Int.floor_lt.mpr (by exact_mod_cast h)
  unfold termIndexFromElon at h24
  omega

lemma termIndex_toNat_lt (e : ℚ) : (termIndexFromElon e).toNat < 24 := by
  have h1 := termIndexFromElon_le_23 e
  have h2 := termIndexFromElon_nonneg e
  omega

lemma floorToMinute_le (t : ℤ) : floorToMinute t ≤ t := by
  have hpos : (0 : ℚ) < (MS_PER_MIN : ℚ) := by norm_num [MS_PER_MIN]
  have h := Int.floor_le ((t : ℚ) / (MS_PER_MIN : ℚ))
  have h2 : (⌊(t : ℚ) / (MS_PER_MIN : ℚ)⌋ : ℚ) * (MS_PER_MIN : ℚ) ≤ t :=
    (le_div_iff₀ hpos).mp h
  unfold floorToMinute
  exact_mod_cast h2

lemma lt_floorToMinute_add (t : ℤ) : t < floorToMinute t + MS_PER_MIN := by
  have hpos : (0 : ℚ) < (MS_PER_MIN : ℚ) := by norm_num [MS_PER_MIN]
  have h := Int.lt_floor_add_one ((t : ℚ) / (MS_PER_MIN : ℚ))
  have h2 : (t : ℚ) < (⌊(t : ℚ) / (MS_PER_MIN : ℚ)⌋ : ℚ) * (MS_PER_MIN : ℚ) + (MS_PER_MIN : ℚ) := by
    rw [div_lt_iff₀ hpos] at h
    linarith
  unfold floorToMinute
  exact_mod_cast h2

lemma dvd_floorToMinute (t : ℤ) : MS_PER_MIN ∣ floorToMinute t := by
  unfold floorToMinute
  exact dvd_mul_left _ _

lemma floorToMinute_lt_of_gap (a b : ℤ) (h : a + MS_PER_MIN ≤ b) :
    floorToMinute a < floorToMinute b := by
  have h1 := floorToMinute_le a
  have h2 := lt_floorToMinute_add b
  linarith

lemma find_eq_of_search (O : Oracle) (lon : ℚ) (c d : ℤ)
    (h : O.search (norm360 lon) (c - 40 * MS_PER_DAY) 80 = some d) :
    findSunLongitudeEvent O lon c =
      (Except.ok d, [⟨norm360 lon, c - 40 * MS_PER_DAY, 80⟩]) := by
  simp only [findSunLongitudeEvent, h]

lemma find_eq_of_fallback (O : Oracle) (lon : ℚ) (c d : ℤ)
    (h1 : O.search (norm360 lon) (c - 40 * MS_PER_DAY) 80 = none)
    (h2 : O.search (norm360 lon) (c - 200 * MS_PER_DAY) 400 = some d) :
    findSunLongitudeEvent O lon c =
      (Except.ok d, [⟨norm360 lon, c - 40 * MS_PER_DAY, 80⟩,
                     ⟨norm360 lon, c - 200 * MS_PER_DAY, 400⟩]) := by
  simp only [findSunLongitudeEvent, h1, h2]

lemma find_eq_of_none (O : Oracle) (lon : ℚ) (c : ℤ)
    (h1 : O.search (norm360 lon) (c - 40 * MS_PER_DAY) 80 = none)
    (h2 : O.search (norm360 lon) (c - 200 * MS_PER_DAY) 400 = none) :
    findSunLongitudeEvent O lon c =
      (Except.error (SolarError.boundaryNotFound lon),
       [⟨norm360 lon, c - 40 * MS_PER_DAY, 80⟩,
        ⟨norm360 lon, c - 200 * MS_PER_DAY, 400⟩]) := by
  simp only [findSunLongitudeEvent, h1, h2]

lemma find_trace_le_two (O : Oracle) (lon : ℚ) (c : ℤ) :
    (findSunLongitudeEvent O lon c).2.length ≤ 2 := by
  unfold findSunLongitudeEvent
  rcases h1 : O.search (norm360 lon) (c - 40 * MS_PER_DAY) 80 with _ | d
  · rcases h2 : O.search (norm360 lon) (c - 200 * MS_PER_DAY) 400 with _ | d2 <;> simp [h1, h2]
  · simp [h1]

lemma corrStep_trace_le_two (O : Oracle) (date : ℤ) (idx0 : ℕ) (cs1 : ℤ) :
    (corrStep O date idx0 cs1).2.length ≤ 2 := by
  unfold corrStep
  split
  · have hf := find_trace_le_two O (termAt ((idx0 + 23) % 24)).lon date
    rcases h : findSunLongitudeEvent O (termAt ((idx0 + 23) % 24)).lon date with ⟨r, tr⟩
    rw [h] at hf
    simp only [h]
    cases r <;> simpa using hf
  · simp

lemma find_trace_le_two' (O : Oracle) (lon : ℚ) (c : ℤ) (r : Except SolarError ℤ)
    (tr : List SearchCall) (h : findSunLongitudeEvent O lon c = (r, tr)) :
    tr.length ≤ 2 := by
  have hh := find_trace_le_two O lon c
  rw [h] at hh
  simpa using hh

lemma corrStep_trace_le_two' (O : Oracle) (date : ℤ) (idx0 : ℕ) (cs1 : ℤ)
    (r : Except SolarError (ℕ × ℤ)) (tr : List SearchCall)
    (h : corrStep O date idx0 cs1 = (r, tr)) : tr.length ≤ 2 := by
  have hh := corrStep_trace_le_two O date idx0 cs1
  rw [h] at hh
  simpa using hh

lemma sound_run (O : Oracle) (now t : ℤ) (bdry : ℕ → ℤ) (cur : ℕ)
    (hs : OracleSound O t bdry cur) :
    (getSolarTermInfo O now (some t)).1 = Except.ok
      { current := ⟨(termAt cur).name, (termAt cur).lon,
                    floorToMinute (bdry cur), floorToMinute (bdry ((cur + 1) % 24))⟩,
        previous := ⟨(termAt ((cur + 23) % 24)).name, (termAt ((cur + 23) % 24)).lon,
                     floorToMinute (bdry ((cur + 23) % 24))⟩,
        next := ⟨(termAt ((cur + 1) % 24)).name, (termAt ((cur + 1) % 24)).lon,
                 floorToMinute (bdry ((cur + 1) % 24))⟩,
        meta := ⟨norm360 (O.elon t), now⟩ } := by
  obtain ⟨hcur, hsearch, hle, hlt, hgap1, hgap2, hidx⟩ := hs
  have hprevlt : (cur + 23) % 24 < 24 := Nat.mod_lt _ (by norm_num)
  have hnextlt : (cur + 1) % 24 < 24 := Nat.mod_lt _ (by norm_num)
  have hfcur := find_eq_of_search O (termAt cur).lon t (bdry cur) (hsearch cur hcur)
  have hfprev := find_eq_of_search O (termAt ((cur + 23) % 24)).lon t
      (bdry ((cur + 23) % 24)) (hsearch _ hprevlt)
  have hfnext := find_eq_of_search O (termAt ((cur + 1) % 24)).lon t
      (bdry ((cur + 1) % 24)) (hsearch _ hnextlt)
  have hnc : ¬ (t < bdry cur) := not_lt.mpr hle
  rcases hidx with hidx | hidx
  · simp only [getSolarTermInfo, hidx, hfcur, corrStep, if_neg hnc, hfprev, hfnext]
  · have hback : (((cur + 1) % 24) + 23) % 24 = cur := by omega
    simp only [getSolarTermInfo, hidx, hfnext, corrStep, if_pos hlt, hback, hfcur, hfprev]

/-- Claim C8: `termIndexFromElon` is total on all (rational = exactly representable
real) inputs, computes `⌊norm360 (elon − 315) / 15⌋`, and always lands in
`[0, 23]`; `norm360` always lands in `[0, 360)`. -/
theorem termIndex_and_norm360_range (e x : ℚ) :
    termIndexFromElon e = ⌊norm360 (e - 315) / 15⌋ ∧
    0 ≤ termIndexFromElon e ∧ termIndexFromElon e ≤ 23 ∧
    0 ≤ norm360 x ∧ norm360 x < 360 :=
  ⟨rfl, termIndexFromElon_nonneg e, termIndexFromElon_le_23 e,
   norm360_nonneg x, norm360_lt_360 x⟩

/-- Claim C7: an input whose coerced time value is NaN (modelled `none`) is
rejected with the invalid-input error and zero oracle calls — no longitude
read and no boundary search happens. -/
theorem invalid_input_rejected (O : Oracle) (now : ℤ) :
    getSolarTermInfo O now none = (Except.error SolarError.invalidInput, 0) := rfl

/-- Claim C4: the boundary search first queries the oracle on the window starting
40 days before the center spanning 80 days; exactly when that yields no
valid instant it retries once on the window starting 200 days before the
center spanning 400 days; if that also fails it errors naming the target
longitude.  The returned call list records every oracle search made. -/
theorem find_window_policy (O : Oracle) (lon : ℚ) (c : ℤ) :
    (∀ d, O.search (norm360 lon) (c - 40 * MS_PER_DAY) 80 = some d →
      findSunLongitudeEvent O lon c =
        (Except.ok d, [⟨norm360 lon, c - 40 * MS_PER_DAY, 80⟩])) ∧
    (O.search (norm360 lon) (c - 40 * MS_PER_DAY) 80 = none →
      ∀ d, O.search (norm360 lon) (c - 200 * MS_PER_DAY) 400 = some d →
        findSunLongitudeEvent O lon c =
          (Except.ok d, [⟨norm360 lon, c - 40 * MS_PER_DAY, 80⟩,
                         ⟨norm360 lon, c - 200 * MS_PER_DAY, 400⟩])) ∧
    (O.search (norm360 lon) (c - 40 * MS_PER_DAY) 80 = none →
      O.search (norm360 lon) (c - 200 * MS_PER_DAY) 400 = none →
      findSunLongitudeEvent O lon c =
        (Except.error (SolarError.boundaryNotFound lon),
         [⟨norm360 lon, c - 40 * MS_PER_DAY, 80⟩,
          ⟨norm360 lon, c - 200 * MS_PER_DAY, 400⟩])) :=
  ⟨fun d h => find_eq_of_search O lon c d h,
   fun h1 d h2 => find_eq_of_fallback O lon c d h1 h2,
   fun h1 h2 => find_eq_of_none O lon c h1 h2⟩

/-- Claim C6 (amended): every resolution makes at most 9 oracle calls: one
longitude read plus at most two searches for each of up to four boundary
searches (initial current, corrected current, previous, next). -/
theorem oracle_calls_le_nine (O : Oracle) (now : ℤ) (input : Option ℤ) :
    (getSolarTermInfo O now input).2 ≤ 9 := by
  rcases input with _ | date
  · simp [getSolarTermInfo]
  · rcases h1 : findSunLongitudeEvent O
        (termAt ((termIndexFromElon (norm360 (O.elon date))).toNat)).lon date with ⟨r1, tr1⟩
    have h1t := find_trace_le_two' O _ date r1 tr1 h1
    rcases r1 with e | cs1
    · simp only [getSolarTermInfo, h1]
      omega
    · rcases h2 : corrStep O date
          ((termIndexFromElon (norm360 (O.elon date))).toNat) cs1 with ⟨r2, tr2⟩
      have h2t := corrStep_trace_le_two' O date _ cs1 r2 tr2 h2
      rcases r2 with e | ⟨idx, currentStart⟩
      · simp only [getSolarTermInfo, h1, h2]
        omega
      · rcases h3 : findSunLongitudeEvent O (termAt ((idx + 23) % 24)).lon date with ⟨r3, tr3⟩
        have h3t := find_trace_le_two' O _ date r3 tr3 h3
        rcases r3 with e | prevStart
        · simp only [getSolarTermInfo, h1, h2, h3]
          omega
        · rcases h4 : findSunLongitudeEvent O (termAt ((idx + 1) % 24)).lon date with ⟨r4, tr4⟩
          have h4t := find_trace_le_two' O _ date r4 tr4 h4
          rcases r4 with e | nextStart
          · simp only [getSolarTermInfo, h1, h2, h3, h4]
            omega
          · simp only [getSolarTermInfo, h1, h2, h3, h4]
            omega

lemma all_not_found_fails (O : Oracle) (now t : ℤ)
    (hnone : ∀ lon s lim, O.search lon s lim = none) :
    (getSolarTermInfo O now (some t)).1 =
      Except.error (SolarError.boundaryNotFound
        (termAt ((termIndexFromElon (norm360 (O.elon t))).toNat)).lon) := by
  have hf := find_eq_of_none O
      (termAt ((termIndexFromElon (norm360 (O.elon t))).toNat)).lon t
      (hnone _ _ _) (hnone _ _ _)
  simp only [getSolarTermInfo, hf]

/-- Claim C1 (amended): under a sound oracle the run succeeds, the current
window's start bounds the query from below, and the query instant precedes
`current.endTime` by less than one minute (the strict bound `t < endTime`
of the original claim can fail because `endTime` is the minute-floor of
the true next boundary). -/
theorem current_window_contains_amended (O : Oracle) (now t : ℤ) (bdry : ℕ → ℤ) (cur : ℕ)
    (hs : OracleSound O t bdry cur) :
    isOkE (getSolarTermInfo O now (some t)).1 = true ∧
    currentStartOf (getSolarTermInfo O now (some t)).1 ≤ t ∧
    t < currentEndOf (getSolarTermInfo O now (some t)).1 + MS_PER_MIN := by
  have h := sound_run O now t bdry cur hs
  obtain ⟨hcur, hsearch, hle, hlt, hgap1, hgap2, hidx⟩ := hs
  rw [h]
  refine ⟨rfl, ?_, ?_⟩
  · show floorToMinute (bdry cur) ≤ t
    exact le_trans (floorToMinute_le _) hle
  · show t < floorToMinute (bdry ((cur + 1) % 24)) + MS_PER_MIN
    exact lt_trans hlt (lt_floorToMinute_add _)

lemma run_ok_fields (O : Oracle) (now t : ℤ) (r : SolarTermInfo) (c : ℕ)
    (h : getSolarTermInfo O now (some t) = (Except.ok r, c)) :
    (∃ a, r.current.startTime = floorToMinute a) ∧
    (∃ a, r.previous.startTime = floorToMinute a) ∧
    r.current.endTime = r.next.startTime ∧
    (∃ a, r.next.startTime = floorToMinute a) ∧
    r.meta.computedAt = now := by
  rcases h1 : findSunLongitudeEvent O
      (termAt ((termIndexFromElon (norm360 (O.elon t))).toNat)).lon t with ⟨r1, tr1⟩
  rcases r1 with e | cs1
  · simp only [getSolarTermInfo, h1] at h
    simp at h
  · rcases h2 : corrStep O t
        ((termIndexFromElon (norm360 (O.elon t))).toNat) cs1 with ⟨r2, tr2⟩
    rcases r2 with e | ⟨idx, currentStart⟩
    · simp only [getSolarTermInfo, h1, h2] at h
      simp at h
    · rcases h3 : findSunLongitudeEvent O (termAt ((idx + 23) % 24)).lon t with ⟨r3, tr3⟩
      rcases r3 with e | prevStart
      · simp only [getSolarTermInfo, h1, h2, h3] at h
        simp at h
      · rcases h4 : findSunLongitudeEvent O (termAt ((idx + 1) % 24)).lon t with ⟨r4, tr4⟩
        rcases r4 with e | nextStart
        · simp only [getSolarTermInfo, h1, h2, h3, h4] at h
          simp at h
        · simp only [getSolarTermInfo, h1, h2, h3, h4, Prod.mk.injEq,
            Except.ok.injEq] at h
          obtain ⟨hr, -⟩ := h
          subst hr
          exact ⟨⟨_, rfl⟩, ⟨_, rfl⟩, rfl, ⟨_, rfl⟩, rfl⟩

/-- Claim C9: in every successful result — whatever the oracle answered —
`current.endTime` equals `next.startTime` exactly (both are the same
minute-floored boundary instant); and assuming the oracle returns correct
boundary instants, the run succeeds and the previous/current/next start
instants are strictly increasing. -/
theorem shared_boundary_and_monotone (O : Oracle) (now t : ℤ) (bdry : ℕ → ℤ) (cur : ℕ) :
    (∀ r c, getSolarTermInfo O now (some t) = (Except.ok r, c) →
      r.current.endTime = r.next.startTime) ∧
    (OracleSound O t bdry cur →
      isOkE (getSolarTermInfo O now (some t)).1 = true ∧
      prevStartOf (getSolarTermInfo O now (some t)).1 <
        currentStartOf (getSolarTermInfo O now (some t)).1 ∧
      currentStartOf (getSolarTermInfo O now (some t)).1 <
        nextStartOf (getSolarTermInfo O now (some t)).1) := by
  constructor
  · intro r c h
    exact (run_ok_fields O now t r c h).2.2.1
  · intro hs
    have h := sound_run O now t bdry cur hs
    obtain ⟨hcur, hsearch, hle, hlt, hgap1, hgap2, hidx⟩ := hs
    rw [h]
    exact ⟨rfl, floorToMinute_lt_of_gap _ _ hgap1, floorToMinute_lt_of_gap _ _ hgap2⟩

/-- Claim C2 (amended): in every successful result the four boundary time fields
(`current.startTime`, `current.endTime`, `previous.startTime`,
`next.startTime`) are truncated to the whole minute (divisible by 60000 ms),
while `meta.computedAt` is the raw wall-clock instant, not truncated. -/
theorem minute_truncation_amended (O : Oracle) (now t : ℤ)
    (hok : isOkE (getSolarTermInfo O now (some t)).1 = true) :
    MS_PER_MIN ∣ currentStartOf (getSolarTermInfo O now (some t)).1 ∧
    MS_PER_MIN ∣ currentEndOf (getSolarTermInfo O now (some t)).1 ∧
    MS_PER_MIN ∣ prevStartOf (getSolarTermInfo O now (some t)).1 ∧
    MS_PER_MIN ∣ nextStartOf (getSolarTermInfo O now (some t)).1 ∧
    computedAtOf (getSolarTermInfo O now (some t)).1 = now := by
  rcases hrun : getSolarTermInfo O now (some t) with ⟨res, c⟩
  rcases res with e | r
  · rw [hrun] at hok
    simp [isOkE] at hok
  · have hf := run_ok_fields O now t r c hrun
    obtain ⟨⟨a1, ha1⟩, ⟨a2, ha2⟩, hend, ⟨a4, ha4⟩, hca⟩ := hf
    refine ⟨?_, ?_, ?_, ?_, hca⟩
    · show MS_PER_MIN ∣ r.current.startTime
      rw [ha1]; exact dvd_floorToMinute _
    · show MS_PER_MIN ∣ r.current.endTime
      rw [hend, ha4]; exact dvd_floorToMinute _
    · show MS_PER_MIN ∣ r.previous.startTime
      rw [ha2]; exact dvd_floorToMinute _
    · show MS_PER_MIN ∣ r.next.startTime
      rw [ha4]; exact dvd_floorToMinute _

lemma run_fields_of_corr (O : Oracle) (now t cs1 : ℤ) (tr1 trc : List SearchCall)
    (idx : ℕ) (cs : ℤ)
    (h1 : findSunLongitudeEvent O
        (termAt ((termIndexFromElon (norm360 (O.elon t))).toNat)).lon t
        = (Except.ok cs1, tr1))
    (hc : corrStep O t ((termIndexFromElon (norm360 (O.elon t))).toNat) cs1
        = (Except.ok (idx, cs), trc))
    (hok : isOkE (getSolarTermInfo O now (some t)).1 = true) :
    currentNameOf (getSolarTermInfo O now (some t)).1 = (termAt idx).name ∧
    currentLonOf (getSolarTermInfo O now (some t)).1 = (termAt idx).lon ∧
    currentStartOf (getSolarTermInfo O now (some t)).1 = floorToMinute cs := by
  rcases h3 : findSunLongitudeEvent O (termAt ((idx + 23) % 24)).lon t with ⟨r3, tr3⟩
  rcases r3 with e | prevStart
  · simp only [getSolarTermInfo, h1, hc, h3, isOkE] at hok
    exact absurd hok (by simp)
  · rcases h4 : findSunLongitudeEvent O (termAt ((idx + 1) % 24)).lon t with ⟨r4, tr4⟩
    rcases r4 with e | nextStart
    · simp only [getSolarTermInfo, h1, hc, h3, h4, isOkE] at hok
      exact absurd hok (by simp)
    · simp [getSolarTermInfo, h1, hc, h3, h4, currentNameOf, currentLonOf,
        currentStartOf]

/-- Claim C3: the self-correction runs at most once and only under strict
inequality.  If the first boundary computed for the longitude-derived index
is at or before the query instant (including exactly equal), the result's
current term is that index with that boundary — no correction.  If it is
strictly after the query instant, the index is stepped back one term as
`(idx + 23) % 24` and its recomputed boundary is used unconditionally —
exactly one correction, never a second. -/
theorem correction_once (O : Oracle) (now t : ℤ) (cs1 : ℤ) (tr1 : List SearchCall)
    (h1 : findSunLongitudeEvent O
        (termAt ((termIndexFromElon (norm360 (O.elon t))).toNat)).lon t
        = (Except.ok cs1, tr1)) :
    (cs1 ≤ t →
      isOkE (getSolarTermInfo O now (some t)).1 = true →
      currentNameOf (getSolarTermInfo O now (some t)).1 =
        (termAt ((termIndexFromElon (norm360 (O.elon t))).toNat)).name ∧
      currentLonOf (getSolarTermInfo O now (some t)).1 =
        (termAt ((termIndexFromElon (norm360 (O.elon t))).toNat)).lon ∧
      currentStartOf (getSolarTermInfo O now (some t)).1 = floorToMinute cs1) ∧
    (t < cs1 →
      ∀ cs2 tr2, findSunLongitudeEvent O
          (termAt (((termIndexFromElon (norm360 (O.elon t))).toNat + 23) % 24)).lon t
          = (Except.ok cs2, tr2) →
      isOkE (getSolarTermInfo O now (some t)).1 = true →
      currentNameOf (getSolarTermInfo O now (some t)).1 =
        (termAt (((termIndexFromElon (norm360 (O.elon t))).toNat + 23) % 24)).name ∧
      currentLonOf (getSolarTermInfo O now (some t)).1 =
        (termAt (((termIndexFromElon (norm360 (O.elon t))).toNat + 23) % 24)).lon ∧
      currentStartOf (getSolarTermInfo O now (some t)).1 = floorToMinute cs2) := by
  constructor
  · intro hle hok
    have hc : corrStep O t ((termIndexFromElon (norm360 (O.elon t))).toNat) cs1
        = (Except.ok (((termIndexFromElon (norm360 (O.elon t))).toNat), cs1), []) := by
      simp only [corrStep, if_neg (not_lt.mpr hle)]
    exact run_fields_of_corr O now t cs1 tr1 [] _ cs1 h1 hc hok
  · intro hlt cs2 tr2 h2 hok
    have hc : corrStep O t ((termIndexFromElon (norm360 (O.elon t))).toNat) cs1
        = (Except.ok ((((termIndexFromElon (norm360 (O.elon t))).toNat + 23) % 24), cs2), tr2) := by
      simp only [corrStep, if_pos hlt, h2]
    exact run_fields_of_corr O now t cs1 tr1 tr2 _ cs2 h1 hc hok

/-- Claim C5: whenever a required boundary search fails both its windows —
the oracle reporting no valid instant for the primary and for the fallback
window — the whole resolution fails with that boundary-not-found error and
returns no (partially-populated) result, whichever required search it is:
the initial current-index search, the corrected-index search, the
previous-term search, or the next-term search; in particular an oracle that
reports not-found for every search makes the resolution fail with the error
for the first searched term longitude. -/
theorem failed_boundary_search_fails_resolution (O : Oracle) (now t : ℤ) :
    (∀ e tr1, findSunLongitudeEvent O
        (termAt ((termIndexFromElon (norm360 (O.elon t))).toNat)).lon t
        = (Except.error e, tr1) →
      (getSolarTermInfo O now (some t)).1 = Except.error e) ∧
    (∀ cs1 tr1 e tr2, findSunLongitudeEvent O
        (termAt ((termIndexFromElon (norm360 (O.elon t))).toNat)).lon t
        = (Except.ok cs1, tr1) →
      t < cs1 →
      findSunLongitudeEvent O
        (termAt (((termIndexFromElon (norm360 (O.elon t))).toNat + 23) % 24)).lon t
        = (Except.error e, tr2) →
      (getSolarTermInfo O now (some t)).1 = Except.error e) ∧
    (∀ cs1 tr1 idx cs trc e tr3, findSunLongitudeEvent O
        (termAt ((termIndexFromElon (norm360 (O.elon t))).toNat)).lon t
        = (Except.ok cs1, tr1) →
      corrStep O t ((termIndexFromElon (norm360 (O.elon t))).toNat) cs1
        = (Except.ok (idx, cs), trc) →
      findSunLongitudeEvent O (termAt ((idx + 23) % 24)).lon t
        = (Except.error e, tr3) →
      (getSolarTermInfo O now (some t)).1 = Except.error e) ∧
    (∀ cs1 tr1 idx cs trc prevStart tr3 e tr4, findSunLongitudeEvent O
        (termAt ((termIndexFromElon (norm360 (O.elon t))).toNat)).lon t
        = (Except.ok cs1, tr1) →
      corrStep O t ((termIndexFromElon (norm360 (O.elon t))).toNat) cs1
        = (Except.ok (idx, cs), trc) →
      findSunLongitudeEvent O (termAt ((idx + 23) % 24)).lon t
        = (Except.ok prevStart, tr3) →
      findSunLongitudeEvent O (termAt ((idx + 1) % 24)).lon t
        = (Except.error e, tr4) →
      (getSolarTermInfo O now (some t)).1 = Except.error e) ∧
    ((∀ lon s lim, O.search lon s lim = none) →
      (getSolarTermInfo O now (some t)).1 =
        Except.error (SolarError.boundaryNotFound
          (termAt ((termIndexFromElon (norm360 (O.elon t))).toNat)).lon)) := by
  refine ⟨?_, ?_, ?_, ?_, all_not_found_fails O now t⟩
  · intro e tr1 h1
    simp only [getSolarTermInfo, h1]
  · intro cs1 tr1 e tr2 h1 hlt h2
    have hc : corrStep O t ((termIndexFromElon (norm360 (O.elon t))).toNat) cs1
        = (Except.error e, tr2) := by
      simp only [corrStep, if_pos hlt, h2]
    simp only [getSolarTermInfo, h1, hc]
  · intro cs1 tr1 idx cs trc e tr3 h1 hc h3
    simp only [getSolarTermInfo, h1, hc, h3]
  · intro cs1 tr1 idx cs trc prevStart tr3 e tr4 h1 hc h3 h4
    simp only [getSolarTermInfo, h1, hc, h3, h4]

/-- Claim C10: the resolver is deterministic modulo the wall clock: two runs
against the same oracle at the same query instant agree on every observable
field (current/previous/next and the longitude) and on the number of oracle
calls; `meta.computedAt` records the wall-clock instant of the run. -/
theorem deterministic_up_to_clock (O : Oracle) (n1 n2 : ℤ) (input : Option ℤ) :
    Except.map obsPart (getSolarTermInfo O n1 input).1 =
      Except.map obsPart (getSolarTermInfo O n2 input).1 ∧
    (getSolarTermInfo O n1 input).2 = (getSolarTermInfo O n2 input).2 ∧
    ∀ r, (getSolarTermInfo O n1 input).1 = Except.ok r → r.meta.computedAt = n1 := by
  rcases input with _ | date
  · refine ⟨rfl, rfl, fun r h => ?_⟩
    simp [getSolarTermInfo] at h
  · rcases h1 : findSunLongitudeEvent O
        (termAt ((termIndexFromElon (norm360 (O.elon date))).toNat)).lon date with ⟨r1, tr1⟩
    rcases r1 with e | cs1
    · refine ⟨?_, ?_, fun r h => ?_⟩
      · simp only [getSolarTermInfo, h1]
      · simp only [getSolarTermInfo, h1]
      · simp only [getSolarTermInfo, h1] at h
        simp at h
    · rcases h2 : corrStep O date
          ((termIndexFromElon (norm360 (O.elon date))).toNat) cs1 with ⟨r2, tr2⟩
      rcases r2 with e | ⟨idx, currentStart⟩
      · refine ⟨?_, ?_, fun r h => ?_⟩
        · simp only [getSolarTermInfo, h1, h2]
        · simp only [getSolarTermInfo, h1, h2]
        · simp only [getSolarTermInfo, h1, h2] at h
          simp at h
      · rcases h3 : findSunLongitudeEvent O (termAt ((idx + 23) % 24)).lon date with ⟨r3, tr3⟩
        rcases r3 with e | prevStart
        · refine ⟨?_, ?_, fun r h => ?_⟩
          · simp only [getSolarTermInfo, h1, h2, h3]
          · simp only [getSolarTermInfo, h1, h2, h3]
          · simp only [getSolarTermInfo, h1, h2, h3] at h
            simp at h
        · rcases h4 : findSunLongitudeEvent O (termAt ((idx + 1) % 24)).lon date with ⟨r4, tr4⟩
          rcases r4 with e | nextStart
          · refine ⟨?_, ?_, fun r h => ?_⟩
            · simp only [getSolarTermInfo, h1, h2, h3, h4]
            · simp only [getSolarTermInfo, h1, h2, h3, h4]
            · simp only [getSolarTermInfo, h1, h2, h3, h4] at h
              simp at h
          · refine ⟨?_, ?_, fun r h => ?_⟩
            · simp only [getSolarTermInfo, h1, h2, h3, h4, Except.map, obsPart]
            · simp only [getSolarTermInfo, h1, h2, h3, h4]
            · simp only [getSolarTermInfo, h1, h2, h3, h4, Except.ok.injEq] at h
              subst h
              rfl

lemma norm360_eq_self (x : ℚ) (h0 : 0 ≤ x) (h1 : x < 360) : norm360 x = x := by
  have hq0 : 0 ≤ x / 360 := by positivity
  have hq1 : x / 360 < 1 := (div_lt_one (by norm_num : (0:ℚ) < 360)).mpr h1
  have ht : ratTrunc (x / 360) = 0 := by
    unfold ratTrunc
    rw [if_pos hq0]
    exact Int.floor_eq_zero_iff.mpr ⟨hq0, hq1⟩
  simp only [norm360, jsMod, ht]
  rw [if_neg (by push_cast; linarith)]
  push_cast
  ring

lemma norm360_eval_neg (deg y : ℚ) (k : ℤ) (hk : ratTrunc (deg / 360) = k)
    (hy : deg - 360 * (k : ℚ) = y) (hneg : y < 0) : norm360 deg = y + 360 := by
  simp only [norm360, jsMod, hk]
  rw [hy, if_pos hneg]

lemma termIndex_315_toNat : (termIndexFromElon (315 : ℚ)).toNat = 0 := by
  unfold termIndexFromElon
  rw [show (315 : ℚ) - 315 = 0 by norm_num, norm360_eq_self 0 (by norm_num) (by norm_num)]
  norm_num

lemma OA_sound_at (t : ℤ) (ht0 : 0 ≤ t) (ht1 : t < 90000) : OracleSound OA t bdryA 0 := by
  refine ⟨by norm_num, ?_, ?_, ?_, ?_, ?_, Or.inl ?_⟩
  · intro j hj
    interval_cases j <;>
      norm_num [OA, termAt, SOLAR_TERMS, bdryA, norm360_eq_self]
  · simpa [bdryA] using ht0
  · simpa [bdryA] using ht1
  · norm_num [bdryA, MS_PER_MIN]
  · norm_num [bdryA, MS_PER_MIN]
  · show (termIndexFromElon (norm360 (OA.elon t))).toNat = 0
    have he : OA.elon t = 315 := rfl
    rw [he, norm360_eq_self 315 (by norm_num) (by norm_num)]
    exact termIndex_315_toNat

lemma idx_of_315 (O : Oracle) (t : ℤ) (h : O.elon t = 315) :
    (termIndexFromElon (norm360 (O.elon t))).toNat = 0 := by
  rw [h, norm360_eq_self 315 (by norm_num) (by norm_num)]
  exact termIndex_315_toNat

lemma OA_run (now t : ℤ) (ht0 : 0 ≤ t) (ht1 : t < 90000) :
    (getSolarTermInfo OA now (some t)).1 = Except.ok
      ⟨⟨"立春", 315, 0, 60000⟩, ⟨"大寒", 300, -1296000000⟩,
       ⟨"雨水", 330, 60000⟩, ⟨315, now⟩⟩ := by
  have h := sound_run OA now t bdryA 0 (OA_sound_at t ht0 ht1)
  rw [h]
  norm_num [OA, termAt, SOLAR_TERMS, bdryA, floorToMinute, MS_PER_MIN, norm360_eq_self]

/-- Claim C1 counterexample: `OA` satisfies the oracle-correctness assumptions at
query instant 70000 ms, the run succeeds, yet
`current.startTime ≤ t < current.endTime` fails: the true next boundary is
at 90000 ms, so `current.endTime` is floored to 60000 ms < t = 70000 ms. -/
theorem window_claim_false_at_70000 :
    OracleSound OA 70000 bdryA 0 ∧
    isOkE (getSolarTermInfo OA 0 (some 70000)).1 = true ∧
    ¬ (currentStartOf (getSolarTermInfo OA 0 (some 70000)).1 ≤ 70000 ∧
       (70000 : ℤ) < currentEndOf (getSolarTermInfo OA 0 (some 70000)).1) := by
  have h := OA_run 0 70000 (by norm_num) (by norm_num)
  refine ⟨OA_sound_at 70000 (by norm_num) (by norm_num), by rw [h]; rfl, ?_⟩
  rintro ⟨-, hlt⟩
  rw [h] at hlt
  simp only [currentEndOf] at hlt
  omega

/-- Claim C1 witness: the amended window property instantiated at `OA`, t = 70000. -/
theorem window_amended_at_70000 :
    isOkE (getSolarTermInfo OA 0 (some 70000)).1 = true ∧
    currentStartOf (getSolarTermInfo OA 0 (some 70000)).1 ≤ 70000 ∧
    (70000 : ℤ) < currentEndOf (getSolarTermInfo OA 0 (some 70000)).1 + MS_PER_MIN :=
  current_window_contains_amended OA 0 70000 bdryA 0
    (OA_sound_at 70000 (by norm_num) (by norm_num))

lemma OB_run :
    getSolarTermInfo OB 0 (some 0) =
      (Except.ok ⟨⟨"立春", 315, 0, 0⟩, ⟨"大寒", 300, 0⟩, ⟨"雨水", 330, 0⟩, ⟨315, 0⟩⟩, 7) := by
  have hidx := idx_of_315 OB 0 rfl
  have h1 := find_eq_of_fallback OB (termAt 0).lon 0 0 rfl rfl
  have hc : corrStep OB 0 0 0 = (Except.ok (0, 0), []) := by
    simp only [corrStep]
    rw [if_neg (by norm_num : ¬ ((0 : ℤ) < 0))]
  have hprev := find_eq_of_fallback OB (termAt ((0 + 23) % 24)).lon 0 0 rfl rfl
  have hnext := find_eq_of_fallback OB (termAt ((0 + 1) % 24)).lon 0 0 rfl rfl
  simp only [getSolarTermInfo, hidx, h1, hc, hprev, hnext]
  norm_num [termAt, SOLAR_TERMS, floorToMinute, MS_PER_MIN, OB, norm360_eq_self]

/-- Claim C9 witness: the shared boundary holds in the successful run of
the unsound all-fallback oracle `OB` (no soundness assumption needed), and
the strict start-time ordering holds at the sound oracle `OA`, t = 70000. -/
theorem shared_boundary_at_70000 :
    currentEndOf (getSolarTermInfo OB 0 (some 0)).1 =
      nextStartOf (getSolarTermInfo OB 0 (some 0)).1 ∧
    isOkE (getSolarTermInfo OA 0 (some 70000)).1 = true ∧
    prevStartOf (getSolarTermInfo OA 0 (some 70000)).1 <
      currentStartOf (getSolarTermInfo OA 0 (some 70000)).1 ∧
    currentStartOf (getSolarTermInfo OA 0 (some 70000)).1 <
      nextStartOf (getSolarTermInfo OA 0 (some 70000)).1 := by
  constructor
  · have h := (shared_boundary_and_monotone OB 0 0 bdryA 0).1
      ⟨⟨"立春", 315, 0, 0⟩, ⟨"大寒", 300, 0⟩, ⟨"雨水", 330, 0⟩, ⟨315, 0⟩⟩ 7 OB_run
    have hfst : (getSolarTermInfo OB 0 (some 0)).1 =
        Except.ok ⟨⟨"立春", 315, 0, 0⟩, ⟨"大寒", 300, 0⟩, ⟨"雨水", 330, 0⟩, ⟨315, 0⟩⟩ := by
      rw [OB_run]
    rw [hfst]
    exact h
  · exact (shared_boundary_and_monotone OA 0 70000 bdryA 0).2
      (OA_sound_at 70000 (by norm_num) (by norm_num))

lemma OA_ok_123 : isOkE (getSolarTermInfo OA 123 (some 70000)).1 = true := by
  rw [OA_run 123 70000 (by norm_num) (by norm_num)]
  rfl

/-- Claim C2 witness: the amended truncation property at `OA`, t = 70000,
wall clock 123 ms. -/
theorem truncation_amended_at_70000 :
    MS_PER_MIN ∣ currentStartOf (getSolarTermInfo OA 123 (some 70000)).1 ∧
    MS_PER_MIN ∣ currentEndOf (getSolarTermInfo OA 123 (some 70000)).1 ∧
    MS_PER_MIN ∣ prevStartOf (getSolarTermInfo OA 123 (some 70000)).1 ∧
    MS_PER_MIN ∣ nextStartOf (getSolarTermInfo OA 123 (some 70000)).1 ∧
    computedAtOf (getSolarTermInfo OA 123 (some 70000)).1 = 123 :=
  minute_truncation_amended OA 123 70000 OA_ok_123

/-- Claim C2 counterexample: with the wall clock at 30000 ms (30 s past the
minute) the successful run stores `meta.computedAt = 30000`, which is not
minute-truncated, contradicting the claim that every time field (including
`meta.computedAt`) has zero seconds. -/
theorem computedAt_not_truncated :
    isOkE (getSolarTermInfo OA 30000 (some 70000)).1 = true ∧
    computedAtOf (getSolarTermInfo OA 30000 (some 70000)).1 = 30000 ∧
    ¬ (MS_PER_MIN ∣ computedAtOf (getSolarTermInfo OA 30000 (some 70000)).1) := by
  have h := OA_run 30000 70000 (by norm_num) (by norm_num)
  refine ⟨by rw [h]; rfl, by rw [h]; rfl, ?_⟩
  rw [h]
  simp only [computedAtOf]
  norm_num [MS_PER_MIN]

/-- Claim C3 witness: at query instant 0 the boundary search returns exactly 0
(`boundary == t`), which does not trigger the correction: the current term
stays at the longitude-derived index 0. -/
theorem boundary_equal_no_correction :
    currentNameOf (getSolarTermInfo OA 0 (some 0)).1 = (termAt 0).name ∧
    currentLonOf (getSolarTermInfo OA 0 (some 0)).1 = (termAt 0).lon ∧
    currentStartOf (getSolarTermInfo OA 0 (some 0)).1 = floorToMinute 0 := by
  have hidx := idx_of_315 OA 0 rfl
  have hsearch0 : OA.search (norm360 (termAt 0).lon) (0 - 40 * MS_PER_DAY) 80 = some 0 := by
    norm_num [OA, termAt, SOLAR_TERMS, norm360_eq_self]
  have h1' := find_eq_of_search OA (termAt 0).lon 0 0 hsearch0
  have h1 : findSunLongitudeEvent OA
      (termAt ((termIndexFromElon (norm360 (OA.elon 0))).toNat)).lon 0
      = (Except.ok 0, [⟨norm360 (termAt 0).lon, 0 - 40 * MS_PER_DAY, 80⟩]) := by
    rw [hidx]
    exact h1'
  have hok : isOkE (getSolarTermInfo OA 0 (some 0)).1 = true := by
    rw [OA_run 0 0 (by norm_num) (by norm_num)]
    rfl
  have hres := (correction_once OA 0 0 0 _ h1).1 (le_refl 0) hok
  rw [hidx] at hres
  exact hres

/-- Claim C4 witness: with `OB` the primary window (40 days before center, 80
days) finds nothing, so the search retries exactly once with the fallback
window (200 days before center, 400 days) and succeeds. -/
theorem fallback_window_used :
    findSunLongitudeEvent OB 315 0 =
      (Except.ok 0, [⟨norm360 315, 0 - 40 * MS_PER_DAY, 80⟩,
                     ⟨norm360 315, 0 - 200 * MS_PER_DAY, 400⟩]) :=
  (find_window_policy OB 315 0).2.1 rfl 0 rfl

/-- Claim C6 counterexample: with `OB` (every primary search fails, every
fallback succeeds) a successful resolution performs 7 oracle calls — more
than the claimed bound of 6 (1 longitude read + 3 boundary searches of 2
oracle calls each, no correction). -/
theorem seven_oracle_calls :
    isOkE (getSolarTermInfo OB 0 (some 0)).1 = true ∧
    (getSolarTermInfo OB 0 (some 0)).2 = 7 ∧
    ¬ ((getSolarTermInfo OB 0 (some 0)).2 ≤ 6) := by
  have hidx := idx_of_315 OB 0 rfl
  have h1 := find_eq_of_fallback OB (termAt 0).lon 0 0 rfl rfl
  have hc : corrStep OB 0 0 0 = (Except.ok (0, 0), []) := by
    simp only [corrStep]
    rw [if_neg (by norm_num : ¬ ((0 : ℤ) < 0))]
  have hprev := find_eq_of_fallback OB (termAt ((0 + 23) % 24)).lon 0 0 rfl rfl
  have hnext := find_eq_of_fallback OB (termAt ((0 + 1) % 24)).lon 0 0 rfl rfl
  refine ⟨?_, ?_, ?_⟩ <;>
    simp [getSolarTermInfo, hidx, h1, hc, hprev, hnext, isOkE]

lemma OC_idx_3 : (termIndexFromElon (norm360 (OC.elon 0))).toNat = 3 := by
  have h0 : norm360 (OC.elon 0) = 0 := by
    rw [show OC.elon 0 = 0 from rfl]
    exact norm360_eq_self 0 (by norm_num) (by norm_num)
  rw [h0]
  unfold termIndexFromElon
  rw [show (0 : ℚ) - 315 = -315 by norm_num,
    norm360_eval_neg (-315) (-315) 0 (by norm_num [ratTrunc]) (by norm_num) (by norm_num)]
  norm_num
  rfl

/-- Claim C5 witness: with oracle `OD` only the previous-term boundary
search (target longitude 300°) fails both windows while the current-term
and next-term searches succeed, and the resolution fails with exactly that
error — no partial result; with the always-not-found oracle `OC` (the Sun
at 0° maps to index 3, 春分, target longitude 0°) the resolution also
fails. -/
theorem single_failed_search_fails_run :
    (getSolarTermInfo OD 11 (some 0)).1 =
      Except.error (SolarError.boundaryNotFound 300) ∧
    (getSolarTermInfo OC 0 (some 0)).1 =
      Except.error (SolarError.boundaryNotFound 0) := by
  constructor
  · have hidx := idx_of_315 OD 0 rfl
    have hs0 : OD.search (norm360 (termAt 0).lon) (0 - 40 * MS_PER_DAY) 80 = some 0 := by
      norm_num [OD, termAt, SOLAR_TERMS, norm360_eq_self]
    have h1 := find_eq_of_search OD (termAt 0).lon 0 0 hs0
    have hc : corrStep OD 0 0 0 = (Except.ok (0, 0), []) := by
      simp only [corrStep]
      rw [if_neg (by norm_num : ¬ ((0 : ℤ) < 0))]
    have hp1 : OD.search (norm360 (termAt ((0 + 23) % 24)).lon)
        (0 - 40 * MS_PER_DAY) 80 = none := by
      norm_num [OD, termAt, SOLAR_TERMS, norm360_eq_self]
    have hp2 : OD.search (norm360 (termAt ((0 + 23) % 24)).lon)
        (0 - 200 * MS_PER_DAY) 400 = none := by
      norm_num [OD, termAt, SOLAR_TERMS, norm360_eq_self]
    have h3 := find_eq_of_none OD (termAt ((0 + 23) % 24)).lon 0 hp1 hp2
    have H := (failed_boundary_search_fails_resolution OD 11 0).2.2.1
    rw [hidx] at H
    have hres := H 0 _ 0 0 [] _ _ h1 hc h3
    rw [hres]
    norm_num [termAt, SOLAR_TERMS]
  · have h := (failed_boundary_search_fails_resolution OC 0 0).2.2.2.2
      (fun _ _ _ => rfl)
    rw [OC_idx_3] at h
    rw [h]
    norm_num [termAt, SOLAR_TERMS]

/-- Claim C10 witness: two runs at the same query instant with wall clocks 77 and
0 agree on all observable fields; the first records `computedAt = 77`. -/
theorem deterministic_at_70000 :
    Except.map obsPart (getSolarTermInfo OA 77 (some 70000)).1 =
      Except.map obsPart (getSolarTermInfo OA 0 (some 70000)).1 ∧
    computedAtOf (getSolarTermInfo OA 77 (some 70000)).1 = 77 := by
  refine ⟨(deterministic_up_to_clock OA 77 0 (some 70000)).1, ?_⟩
  have h := (deterministic_up_to_clock OA 77 0 (some 70000)).2.2
    ⟨⟨"立春", 315, 0, 60000⟩, ⟨"大寒", 300, -1296000000⟩,
     ⟨"雨水", 330, 60000⟩, ⟨315, 77⟩⟩
    (OA_run 77 70000 (by norm_num) (by norm_num))
  rw [OA_run 77 70000 (by norm_num) (by norm_num)]
  exact h
